import Mathlib

/-!
Shallow embedding of `python/ingestion/gcs_to_bq_util.py`.

The module moves tabular data between Google Cloud Storage and BigQuery:
`append_dataframe_to_bq` appends an in-memory pandas DataFrame to a BigQuery
table (stamping an ingestion-time column), `load_values_as_dataframe` loads a
JSON "values"-format object (header row + data rows) from a bucket into a
DataFrame, and `load_csv_as_dataframe` loads a CSV object into a DataFrame
with optional per-column dtype hints.

The embedding is value-level and executable.  External collaborators are
modelled explicitly:
  * python `dict`s become insertion-ordered association lists with unique keys
    (`dictSet` mirrors `d[k] = v`: an existing key keeps its position, a new
    key is appended — python 3.7+ dict semantics);
  * the local filesystem (`/tmp` staging) becomes an association list from
    path to file content, threaded through the loaders;
  * the GCS bucket becomes an association list from object name to content;
  * the wall clock (`time.time()`) and the BigQuery load-job outcome are
    injected as parameters, so one call of the embedded function corresponds
    to one run of the python function under a given environment;
  * the BigQuery client is not contacted; instead the embedding records the
    constructed client count and the submitted load jobs, so "no network
    call" is the statement that the job list is empty and no client was made.
-/

namespace GcsToBq

/-- A scalar cell value as it appears in a DataFrame or a JSON document.
`vTime` models the float returned by `time.time()` as an abstract injected
clock reading (no claim depends on float arithmetic, only on equality). -/
inductive Value where
  | vNull
  | vBool (b : Bool)
  | vInt (n : Int)
  | vStr (s : String)
  | vTime (t : Int)
deriving DecidableEq, Repr

/-- A parsed JSON document: atoms and (arbitrarily nested) arrays. -/
inductive Json where
  | atom (v : Value)
  | arr (xs : List Json)

/-- The content of a staged object / local file: either text that parses as a
JSON document (modelled pre-parsed, since the claims never inspect raw JSON
text) or raw text (e.g. CSV data, or bytes that are not valid JSON). -/
inductive Bytes where
  | jsonDoc (j : Json)
  | chars (s : String)

/-- A pandas DataFrame: an ordered list of column names and an ordered list
of rows, each row an ordered list of cell values positionally aligned with
the columns. -/
structure DataFrame where
  columns : List String
  rows : List (List Value)
deriving DecidableEq, Repr

/-- A DataFrame as pandas actually constructs them is rectangular: every row
has exactly one value per column. -/
def DataFrame.WF (f : DataFrame) : Prop :=
  ∀ r ∈ f.rows, r.length = f.columns.length

instance (f : DataFrame) : Decidable f.WF :=
  inferInstanceAs (Decidable (∀ r ∈ f.rows, r.length = f.columns.length))

/-- Python `d[k] = v` on an insertion-ordered dict represented as an
association list: an existing key keeps its position and gets the new value,
a missing key is appended at the end. -/
def dictSet {β : Type} (d : List (String × β)) (k : String) (v : β) :
    List (String × β) :=
  if d.any (fun p => p.1 == k) then
    d.map (fun p => if p.1 == k then (k, v) else p)
  else
    d ++ [(k, v)]

/-- A python dict of column name to BigQuery type / mode string. -/
abbrev Dict := List (String × String)

/-- The local filesystem visible to the module: path → file content. -/
abbrev FS := List (String × Bytes)

/-- Embeds `os.remove`: the path is no longer present afterwards. -/
def fsRemove (fs : FS) (p : String) : FS :=
  fs.filter (fun e => e.1 != p)

/-- Embeds `'/tmp/{}'.format(filename)` — the local staging path resolver. -/
def local_file_path (filename : String) : String :=
  "/tmp/" ++ filename

/-- Embeds `frame['ingestion_time'] = scalar` (pandas scalar column assignment):
if the column exists every row's value in that column is overwritten,
otherwise the column is appended on the right and every row gains the
scalar. -/
def DataFrame.setColumnScalar (f : DataFrame) (name : String) (v : Value) :
    DataFrame :=
  if f.columns.contains name then
    { columns := f.columns
      rows := f.rows.map (fun r =>
        (f.columns.zip r).map (fun cx => if cx.1 == name then v else cx.2)) }
  else
    { columns := f.columns ++ [name]
      rows := f.rows.map (fun r => r ++ [v]) }

/-- Embeds `frame.to_json(orient='records')` followed by `json.loads`: one mapping
from column name to value per row, in row order. -/
def DataFrame.toRecords (f : DataFrame) : List (List (String × Value)) :=
  f.rows.map (fun r => f.columns.zip r)

/-- One field of a BigQuery schema (`bigquery.SchemaField`). -/
structure SchemaField where
  name : String
  fieldType : String
  mode : String
deriving DecidableEq, Repr

/-- The parts of `bigquery.LoadJobConfig` the module sets. -/
structure LoadJobConfig where
  write_disposition : String
  schema : List SchemaField
deriving DecidableEq, Repr

/-- One submitted load job: destination, configuration and the row records
sent with it. -/
structure BqLoadJob where
  dataset : String
  table : String
  config : LoadJobConfig
  rows : List (List (String × Value))

/-- Errors surfaced by `append_dataframe_to_bq`: the schema-mismatch
exception raised by the validation check, or a failure reported by the
load job. -/
inductive AppendError where
  | schemaMismatch
  | loadJobError (msg : String)
deriving DecidableEq, Repr

/-- The observable outcome of one `append_dataframe_to_bq` call: the caller's
DataFrame after the call (the python function mutates its argument in
place), how many BigQuery clients were constructed, the load jobs that were
submitted, and the returned result. -/
structure AppendOutcome where
  frame : DataFrame
  clientsConstructed : Nat
  jobs : List BqLoadJob
  result : Except AppendError Unit

/-- Embeds `col_modes[col] if col in col_modes else 'NULLABLE'`. -/
def modeOf (col_modes : Dict) (c : String) : String :=
  match col_modes.lookup c with
  | some m => m
  | none => "NULLABLE"

/-- Embeds `schema = list(map(create_field, columns.keys()))`: one
`SchemaField(col, columns[col], mode=...)` per entry of the augmented
column-type dict, in dict order. -/
def buildSchema (columns : Dict) (col_modes : Dict) : List SchemaField :=
  columns.map (fun p => { name := p.1, fieldType := p.2, mode := modeOf col_modes p.1 })

/-- The validation check of `append_dataframe_to_bq` as the source writes it:
`len(input_cols) != len(frame.columns) or set(input_cols) != set(frame.columns)`
raises; this Bool is that raising condition. -/
def schemaMismatchCond (column_types : Dict) (frame : DataFrame) : Bool :=
  let input_cols := column_types.map Prod.fst
  input_cols.length != frame.columns.length
    || !(input_cols.all (fun c => frame.columns.contains c)
         && frame.columns.all (fun c => input_cols.contains c))

/-- Embeds `append_dataframe_to_bq(frame, column_types, dataset, table_name,
col_modes=None)`.  `clock` is the value `time.time()` returns during the
call; `jobOutcome` is the result the submitted load job reports to
`load_job.result()`. -/
def append_dataframe_to_bq (frame : DataFrame) (column_types : Dict)
    (dataset table_name : String) (col_modes : Option Dict)
    (clock : Int) (jobOutcome : Except String Unit) : AppendOutcome :=
  let col_modes := col_modes.getD []
  if schemaMismatchCond column_types frame then
    { frame := frame, clientsConstructed := 0, jobs := []
      result := .error .schemaMismatch }
  else
    let columns := dictSet column_types "ingestion_time" "TIMESTAMP"
    let ingestion_time := clock
    let frame := frame.setColumnScalar "ingestion_time" (.vTime ingestion_time)
    let schema := buildSchema columns col_modes
    let job_config : LoadJobConfig :=
      { write_disposition := "WRITE_APPEND", schema := schema }
    let json_data := frame.toRecords
    let job : BqLoadJob :=
      { dataset := dataset, table := table_name, config := job_config
        rows := json_data }
    { frame := frame, clientsConstructed := 1, jobs := [job]
      result := match jobOutcome with
                | .ok _ => .ok ()
                | .error e => .error (.loadJobError e) }

/-- Modelled from the spec's glossary ("Write-disposition: the policy
governing whether a load job appends, overwrites, or requires an empty
destination table") and §6: the warehouse collaborator applies a load job
with write-disposition `WRITE_APPEND` by appending the job's rows after the
existing destination rows; any other disposition replaces the destination
content. -/
def applyLoadJob (dest : List (List (String × Value))) (job : BqLoadJob) :
    List (List (String × Value)) :=
  if job.config.write_disposition == "WRITE_APPEND" then
    dest ++ job.rows
  else
    job.rows

/-- Errors surfaced by the two loaders. -/
inductive LoadError where
  | notFound (name : String)
  | parseError (msg : String)
deriving DecidableEq, Repr

/-- Embeds `json.load` on a staged file: succeeds exactly when the content is a
well-formed JSON document (modelled pre-parsed by `Bytes.jsonDoc`). -/
def json_load : Bytes → Except String Json
  | .jsonDoc j => .ok j
  | .chars _ => .error "JSONDecodeError: Expecting value"

/-- Sequential effectful map over `Except`, mirroring python's row-by-row
iteration: stops at the first failure. -/
def mapExcept {α β : Type} (f : α → Except String β) :
    List α → Except String (List β)
  | [] => .ok []
  | x :: xs =>
      match f x, mapExcept f xs with
      | .ok y, .ok ys => .ok (y :: ys)
      | .error e, _ => .error e
      | .ok _, .error e => .error e

/-- A header entry used as a column name.  Column names are modelled as
strings (the values format this module documents uses string headers); a
non-string header entry is modelled as a construction failure. -/
def asColName : Json → Except String String
  | .atom (.vStr s) => .ok s
  | _ => .error "model: non-string column name"

/-- One data row of the values format: must be a JSON array of scalars
(`numpy.lib.to_object_array` calls `len` on each row, so a non-array row
raises; nested arrays inside a row are outside the claims and modelled as a
construction failure). -/
def recordList : Json → Except String (List Value)
  | .arr xs => mapExcept (fun j =>
      match j with
      | .atom v => .ok v
      | .arr _ => .error "model: nested value in row") xs
  | .atom _ => .error "TypeError: object of type has no len"

/-- The longest row length among the records (`numpy.lib.to_object_array`
sizes its object array by the longest row). -/
def maxLen (rs : List (List Value)) : Nat :=
  rs.foldr (fun r m => max r.length m) 0

/-- Embeds `pandas.DataFrame.from_records(records, columns=cols)` for a list of
lists: an empty record list yields an empty frame with the given columns;
otherwise the records are laid out in an object array whose width is the
longest row length, short rows padded with `None`, and a `ValueError` is
raised when the number of columns passed differs from that width
(`pandas.core.internals.construction`, "n columns passed, passed data had m
columns"). -/
def from_records (records : List (List Value)) (cols : List String) :
    Except String DataFrame :=
  if records.isEmpty then
    .ok { columns := cols, rows := [] }
  else if cols.length != maxLen records then
    .error "ValueError: columns passed, passed data had different number of columns"
  else
    .ok { columns := cols
          rows := records.map (fun r =>
            r ++ List.replicate (maxLen records - r.length) .vNull) }

/-- Embeds `data[0].copy()` / `DataFrame.from_records(data[1:].copy(), columns=...)`:
the table-construction step of `load_values_as_dataframe` applied to the
parsed JSON document. -/
def valuesFrame : Json → Except String DataFrame
  | .arr (h :: t) =>
      match h with
      | .arr hs =>
          match mapExcept asColName hs, mapExcept recordList t with
          | .ok col_names, .ok records => from_records records col_names
          | .error e, _ => .error e
          | .ok _, .error e => .error e
      | .atom _ => .error "AttributeError: object has no attribute copy"
  | .arr [] => .error "IndexError: list index out of range"
  | .atom _ => .error "TypeError: object is not subscriptable"

/-- Embeds `load_values_as_dataframe(gcs_bucket, filename)`.  `gcs_bucket` maps
object names to their content; `fs` is the local filesystem before the call;
the result pairs the filesystem after the call with the returned DataFrame
or the raised error. -/
def load_values_as_dataframe (gcs_bucket : List (String × Bytes))
    (filename : String) (fs : FS) : FS × Except LoadError DataFrame :=
  match gcs_bucket.lookup filename with
  | none => (fs, .error (.notFound filename))
  | some blob =>
      let local_path := local_file_path filename
      let fs := dictSet fs local_path blob
      match json_load blob with
      | .error e => (fs, .error (.parseError e))
      | .ok data =>
          match valuesFrame data with
          | .error e => (fs, .error (.parseError e))
          | .ok frame => (fsRemove fs local_path, .ok frame)

/-- Splits a character list at a separator, accumulating the current field
(reversed); every separator ends a field, so `n` separators yield `n + 1`
fields. -/
def splitCharAux (sep : Char) : List Char → List Char → List String
  | [], acc => [String.mk acc.reverse]
  | c :: cs, acc =>
      if c == sep then String.mk acc.reverse :: splitCharAux sep cs []
      else splitCharAux sep cs (c :: acc)

/-- Splits a string at every occurrence of `sep`. -/
def splitChar (sep : Char) (s : String) : List String :=
  splitCharAux sep s.data []

/-- Accumulating decimal-digit parser over a character list; `none` when no
digit has been seen or a non-digit occurs. -/
def parseDigits : List Char → Option Nat → Option Nat
  | [], acc => acc
  | c :: cs, acc =>
      if c.isDigit then
        parseDigits cs (some ((acc.getD 0) * 10 + (c.toNat - 48)))
      else none

/-- Integer syntax recognition for CSV cells (pandas dtype inference treats
a column whose every cell is an optionally-signed integer literal as an
integer column). -/
def strToInt (s : String) : Option Int :=
  match s.data with
  | '-' :: rest => (parseDigits rest none).map (fun n => -(n : Int))
  | ds => (parseDigits ds none).map (fun n => (n : Int))

/-- Whether every cell of column `j` of the data grid parses as an integer
(pandas infers column dtype from all values of the column). -/
def colAllInt (cells : List (List String)) (j : Nat) : Bool :=
  cells.all (fun r => (strToInt (r.getD j "")).isSome)

/-- The parsed value of cell text `s` in column index `j` named
`cols.getD j`: a caller dtype hint of `"str"` keeps the raw text; otherwise
the cell is an integer iff the whole column is integer-valued.  (The model
covers the string hint, which is the use the source documents: "to force
integer-like ids to be treated as strings".) -/
def typeCell (dtype : Dict) (cells : List (List String))
    (cols : List String) (j : Nat) (s : String) : Value :=
  match dtype.lookup (cols.getD j "") with
  | some "str" => .vStr s
  | _ =>
      if colAllInt cells j then
        match strToInt s with
        | some n => .vInt n
        | none => .vStr s
      else .vStr s

/-- Embeds `pandas.read_csv(local_path, dtype=dtype)` for simple unquoted CSV text:
the first non-blank line is the header, later lines are data rows; a row
with more fields than the header is a parser error, short rows are padded
with empty cells; column types are inferred per column unless a dtype hint
overrides them.  Content that is not text (a JSON-modelled blob) is not
valid for this model's CSV reader. -/
def read_csv (blob : Bytes) (dtype : Option Dict) : Except String DataFrame :=
  match blob with
  | .jsonDoc _ => .error "model: content is not CSV text"
  | .chars s =>
      match (splitChar '\n' s).filter (fun l => l != "") with
      | [] => .error "EmptyDataError: No columns to parse from file"
      | header :: rest =>
          let cols := splitChar ',' header
          let raw := rest.map (fun l => splitChar ',' l)
          if raw.any (fun r => cols.length < r.length) then
            .error "ParserError: too many fields"
          else
            let cells := raw.map (fun r =>
              r ++ List.replicate (cols.length - r.length) "")
            .ok { columns := cols
                  rows := cells.map (fun r =>
                    r.mapIdx (fun j s => typeCell (dtype.getD []) cells cols j s)) }

/-- Embeds `load_csv_as_dataframe(gcs_bucket, filename, dtype=None)`: stage the
object to the local path, then read it as CSV.  The staging file is not
removed. -/
def load_csv_as_dataframe (gcs_bucket : List (String × Bytes))
    (filename : String) (dtype : Option Dict) (fs : FS) :
    FS × Except LoadError DataFrame :=
  match gcs_bucket.lookup filename with
  | none => (fs, .error (.notFound filename))
  | some blob =>
      let local_path := local_file_path filename
      let fs := dictSet fs local_path blob
      match read_csv blob dtype with
      | .error e => (fs, .error (.parseError e))
      | .ok frame => (fs, .ok frame)

/-! ### Association-list, zip and dict lemmas -/

theorem lookup_eq_none_of_keys_ne {β : Type} (l : List (String × β)) (k : String)
    (h : ∀ p ∈ l, p.1 ≠ k) : l.lookup k = none := by
  induction l with
  | nil => rfl
  | cons p t ih =>
      obtain ⟨a, b⟩ := p
      have ha : a ≠ k := h (a, b) (List.mem_cons_self _ _)
      have hk : (k == a) = false := by
        simp only [beq_eq_false_iff_ne]
        exact fun hk => ha hk.symm
      simp only [List.lookup, hk]
      exact ih (fun q hq => h q (List.mem_cons_of_mem _ hq))

theorem lookup_append_of_none {β : Type} (l1 l2 : List (String × β)) (k : String)
    (h : l1.lookup k = none) : (l1 ++ l2).lookup k = l2.lookup k := by
  induction l1 with
  | nil => rfl
  | cons p t ih =>
      obtain ⟨a, b⟩ := p
      cases hab : (k == a) with
      | true => simp [List.lookup, hab] at h
      | false =>
          simp only [List.lookup, hab] at h ⊢
          exact ih h

theorem dictSet_update_keys {β : Type} (d : List (String × β)) (k : String) (v : β) :
    (d.map (fun p => if p.1 == k then (k, v) else p)).map Prod.fst = d.map Prod.fst := by
  induction d with
  | nil => rfl
  | cons p t ih =>
      have hhead : (if (p.1 == k) = true then (k, v) else p).1 = p.1 := by
        by_cases hp : p.1 = k
        · simp [hp]
        · simp [hp]
      simp only [List.map_cons, hhead, ih]

theorem dictSet_keys_mem {β : Type} (d : List (String × β)) (k : String) (v : β)
    (c : String) :
    c ∈ (dictSet d k v).map Prod.fst ↔ c ∈ d.map Prod.fst ∨ c = k := by
  unfold dictSet
  by_cases h : d.any (fun p => p.1 == k) = true
  · rw [if_pos h, dictSet_update_keys]
    have hk : k ∈ d.map Prod.fst := by
      rw [List.any_eq_true] at h
      obtain ⟨p, hp, hpk⟩ := h
      rw [beq_iff_eq] at hpk
      exact hpk ▸ List.mem_map_of_mem Prod.fst hp
    constructor
    · exact fun hc => Or.inl hc
    · rintro (hc | rfl)
      · exact hc
      · exact hk
  · rw [if_neg h]
    simp [List.mem_append]

theorem dictSet_keys_nodup {β : Type} (d : List (String × β)) (k : String) (v : β)
    (h : (d.map Prod.fst).Nodup) : ((dictSet d k v).map Prod.fst).Nodup := by
  unfold dictSet
  by_cases hany : d.any (fun p => p.1 == k) = true
  · rw [if_pos hany, dictSet_update_keys]
    exact h
  · rw [if_neg hany]
    have hk : k ∉ d.map Prod.fst := by
      intro hm
      obtain ⟨p, hp, hpk⟩ := List.mem_map.mp hm
      apply hany
      rw [List.any_eq_true]
      exact ⟨p, hp, beq_iff_eq.mpr hpk⟩
    rw [List.map_append, List.nodup_append]
    refine ⟨h, List.nodup_singleton k, ?_⟩
    intro a ha hb
    simp only [List.map_cons, List.map_nil, List.mem_singleton] at hb
    exact hk (hb ▸ ha)

theorem dictSet_mem_val {β : Type} (d : List (String × β)) (k : String) (v : β)
    (p : String × β) (hp : p ∈ dictSet d k v) (hk : p.1 = k) : p.2 = v := by
  unfold dictSet at hp
  by_cases hany : d.any (fun p => p.1 == k) = true
  · rw [if_pos hany] at hp
    obtain ⟨q, _, hq⟩ := List.mem_map.mp hp
    by_cases hqk : q.1 = k
    · rw [if_pos (beq_iff_eq.mpr hqk)] at hq
      rw [← hq]
    · rw [if_neg (by simpa using hqk)] at hq
      exact absurd (hq ▸ hk) hqk
  · rw [if_neg hany] at hp
    rcases List.mem_append.mp hp with hin | hone
    · exfalso
      apply hany
      rw [List.any_eq_true]
      exact ⟨p, hin, beq_iff_eq.mpr hk⟩
    · rw [List.mem_singleton] at hone
      rw [hone]

theorem dictSet_lookup {β : Type} (d : List (String × β)) (k : String) (v : β) :
    (dictSet d k v).lookup k = some v := by
  unfold dictSet
  by_cases hany : d.any (fun p => p.1 == k) = true
  · rw [if_pos hany]
    induction d with
    | nil => simp at hany
    | cons p t ih =>
        by_cases hp : p.1 = k
        · simp only [List.map_cons, if_pos (beq_iff_eq.mpr hp)]
          simp [List.lookup]
        · have hp' : (p.1 == k) = false := by simpa using hp
          simp only [List.map_cons, hp', if_false, Bool.false_eq_true]
          have hk : (k == p.1) = false := by
            simp only [beq_eq_false_iff_ne]
            exact fun hkk => hp hkk.symm
          simp only [List.lookup, hk]
          apply ih
          simp only [List.any_cons, hp', Bool.false_or] at hany
          exact hany
  · rw [if_neg hany]
    rw [lookup_append_of_none]
    · simp [List.lookup]
    · apply lookup_eq_none_of_keys_ne
      intro q hq hqk
      apply hany
      rw [List.any_eq_true]
      exact ⟨q, hq, beq_iff_eq.mpr hqk⟩

theorem fsRemove_lookup (fs : FS) (p : String) : (fsRemove fs p).lookup p = none := by
  apply lookup_eq_none_of_keys_ne
  intro q hq
  have := List.mem_filter.mp hq
  simpa [bne_iff_ne] using this.2

theorem lookup_zip_eq_none (cols : List String) (row : List Value) (n : String)
    (h : n ∉ cols) : (cols.zip row).lookup n = none := by
  apply lookup_eq_none_of_keys_ne
  intro q hq hqn
  obtain ⟨a, b⟩ := q
  exact h (hqn ▸ (List.of_mem_zip hq).1)

theorem zip_overwrite_lookup (cols : List String) (row : List Value) (n : String)
    (v : Value) (hlen : row.length = cols.length) (hmem : n ∈ cols) :
    (cols.zip ((cols.zip row).map
      (fun cx => if cx.1 == n then v else cx.2))).lookup n = some v := by
  induction cols generalizing row with
  | nil => simp at hmem
  | cons c cs ih =>
      cases row with
      | nil => simp at hlen
      | cons x xs =>
          simp only [List.zip_cons_cons, List.map_cons]
          by_cases hc : n = c
          · subst hc
            simp [List.lookup]
          · have hcb : (c == n) = false := by
              simp only [beq_eq_false_iff_ne]
              exact fun hcc => hc hcc.symm
            have hnb : (n == c) = false := by simpa using hc
            simp only [hcb, if_false, Bool.false_eq_true, List.lookup, hnb]
            apply ih
            · simpa using hlen
            · rcases List.mem_cons.mp hmem with h1 | h2
              · exact absurd h1 hc
              · exact h2

/-! ### DataFrame mutation lemmas -/

theorem setColumnScalar_rows_length (f : DataFrame) (n : String) (v : Value) :
    (f.setColumnScalar n v).rows.length = f.rows.length := by
  by_cases h : n ∈ f.columns <;> simp [DataFrame.setColumnScalar, h]

theorem setColumnScalar_mem_columns (f : DataFrame) (n : String) (v : Value) :
    n ∈ (f.setColumnScalar n v).columns := by
  unfold DataFrame.setColumnScalar
  by_cases h : f.columns.contains n = true
  · rw [if_pos h]
    exact List.elem_iff.mp h
  · rw [if_neg h]
    simp

theorem setColumnScalar_toRecords_lookup (f : DataFrame) (hwf : f.WF) (n : String)
    (v : Value) :
    ∀ r ∈ (f.setColumnScalar n v).toRecords, r.lookup n = some v := by
  intro r hr
  unfold DataFrame.setColumnScalar DataFrame.toRecords at hr
  by_cases h : f.columns.contains n = true
  · rw [if_pos h] at hr
    simp only [List.map_map, List.mem_map, Function.comp] at hr
    obtain ⟨row, hrow, rfl⟩ := hr
    exact zip_overwrite_lookup f.columns row n v (hwf row hrow) (List.elem_iff.mp h)
  · rw [if_neg h] at hr
    simp only [List.map_map, List.mem_map, Function.comp] at hr
    obtain ⟨row, hrow, rfl⟩ := hr
    rw [List.zip_append (by rw [hwf row hrow])]
    rw [lookup_append_of_none]
    · simp [List.lookup]
    · exact lookup_zip_eq_none f.columns row n (fun hm => h (List.elem_iff.mpr hm))

/-! ### The validation check and the two branches of the appender -/

/-- The semantic reading of the validation check: the Column Type Mapping's
key set is exactly equal to the Structured Table's column set — same
cardinality (key list and column list have the same length) and the same
members. -/
def SchemaOk (column_types : Dict) (frame : DataFrame) : Prop :=
  (column_types.map Prod.fst).length = frame.columns.length ∧
    ∀ c, c ∈ column_types.map Prod.fst ↔ c ∈ frame.columns

theorem schemaMismatchCond_false_iff (ct : Dict) (f : DataFrame) :
    schemaMismatchCond ct f = false ↔ SchemaOk ct f := by
  unfold schemaMismatchCond SchemaOk
  simp only [Bool.or_eq_false_iff, bne_eq_false_iff_eq, Bool.not_eq_false',
    Bool.and_eq_true, List.all_eq_true, List.contains, List.elem_iff]
  constructor
  · rintro ⟨h1, h2, h3⟩
    exact ⟨h1, fun c => ⟨fun hc => h2 c hc, fun hc => h3 c hc⟩⟩
  · rintro ⟨h1, h2⟩
    exact ⟨h1, fun c hc => (h2 c).mp hc, fun c hc => (h2 c).mpr hc⟩

theorem append_eq_of_schemaOk (frame : DataFrame) (ct : Dict) (ds tn : String)
    (cm : Option Dict) (clock : Int) (jr : Except String Unit)
    (h : SchemaOk ct frame) :
    append_dataframe_to_bq frame ct ds tn cm clock jr =
      { frame := frame.setColumnScalar "ingestion_time" (.vTime clock)
        clientsConstructed := 1
        jobs := [{ dataset := ds, table := tn
                   config := { write_disposition := "WRITE_APPEND"
                               schema := buildSchema
                                 (dictSet ct "ingestion_time" "TIMESTAMP")
                                 (cm.getD []) }
                   rows := (frame.setColumnScalar "ingestion_time"
                     (.vTime clock)).toRecords }]
        result := match jr with
                  | .ok _ => .ok ()
                  | .error e => .error (.loadJobError e) } := by
  have hc : schemaMismatchCond ct frame = false :=
    (schemaMismatchCond_false_iff ct frame).mpr h
  simp [append_dataframe_to_bq, hc]

theorem append_eq_of_mismatch (frame : DataFrame) (ct : Dict) (ds tn : String)
    (cm : Option Dict) (clock : Int) (jr : Except String Unit)
    (h : ¬ SchemaOk ct frame) :
    append_dataframe_to_bq frame ct ds tn cm clock jr =
      { frame := frame, clientsConstructed := 0, jobs := []
        result := .error .schemaMismatch } := by
  have hc : schemaMismatchCond ct frame = true := by
    rcases Bool.eq_false_or_eq_true (schemaMismatchCond ct frame) with hcb | hcb
    · exact hcb
    · exact absurd ((schemaMismatchCond_false_iff ct frame).mp hcb) h
  simp [append_dataframe_to_bq, hc]

/-! ### Shared facts about the appender's submitted jobs -/

theorem buildSchema_names (cols col_modes : Dict) :
    (buildSchema cols col_modes).map SchemaField.name = cols.map Prod.fst := by
  unfold buildSchema
  rw [List.map_map]
  rfl

theorem toRecords_length (f : DataFrame) : f.toRecords.length = f.rows.length := by
  simp [DataFrame.toRecords]

theorem append_jobs_rows_lookup (frame : DataFrame) (ct : Dict) (ds tn : String)
    (cm : Option Dict) (clock : Int) (jr : Except String Unit) (hwf : frame.WF) :
    ∀ job ∈ (append_dataframe_to_bq frame ct ds tn cm clock jr).jobs,
      ∀ r ∈ job.rows, r.lookup "ingestion_time" = some (.vTime clock) := by
  intro job hjob r hr
  by_cases h : SchemaOk ct frame
  · rw [append_eq_of_schemaOk frame ct ds tn cm clock jr h] at hjob
    rw [List.mem_singleton] at hjob
    subst hjob
    exact setColumnScalar_toRecords_lookup frame hwf _ _ r hr
  · rw [append_eq_of_mismatch frame ct ds tn cm clock jr h] at hjob
    simp at hjob

/-! ### Claim theorems -/

/-- C1: for every Structured Table and Column Type Mapping whose key set is
not exactly equal to the table's column set, `append_dataframe_to_bq` raises
the schema-mismatch error, and does so before any network activity: no
BigQuery client is constructed and no load job is submitted. -/
theorem append_schema_mismatch_fails_before_network
    (frame : DataFrame) (ct : Dict) (ds tn : String) (cm : Option Dict)
    (clock : Int) (jr : Except String Unit)
    (h : ¬ ∀ c, c ∈ ct.map Prod.fst ↔ c ∈ frame.columns) :
    (append_dataframe_to_bq frame ct ds tn cm clock jr).result =
        .error .schemaMismatch ∧
      (append_dataframe_to_bq frame ct ds tn cm clock jr).jobs = [] ∧
      (append_dataframe_to_bq frame ct ds tn cm clock jr).clientsConstructed = 0 := by
  have hmm : ¬ SchemaOk ct frame := fun hs => h hs.2
  rw [append_eq_of_mismatch frame ct ds tn cm clock jr hmm]
  exact ⟨rfl, rfl, rfl⟩

/-- C1 witness: the mapping `{"b": STRING}` against a table with single
column `"a"` raises the mismatch without constructing a client or
submitting a job. -/
theorem append_schema_mismatch_fails_before_network_witness :
    (append_dataframe_to_bq ⟨["a"], [[.vInt 1]]⟩ [("b", "STRING")]
        "ds" "t" none 7 (.ok ())).result = .error .schemaMismatch ∧
      (append_dataframe_to_bq ⟨["a"], [[.vInt 1]]⟩ [("b", "STRING")]
        "ds" "t" none 7 (.ok ())).jobs = [] ∧
      (append_dataframe_to_bq ⟨["a"], [[.vInt 1]]⟩ [("b", "STRING")]
        "ds" "t" none 7 (.ok ())).clientsConstructed = 0 :=
  append_schema_mismatch_fails_before_network ⟨["a"], [[.vInt 1]]⟩
    [("b", "STRING")] "ds" "t" none 7 (.ok ())
    (fun h => absurd ((h "b").mp (by decide)) (by decide))

/-- C2: when the mapping's key set exactly matches the table's columns, a
successful `append_dataframe_to_bq` call submits exactly one load job whose
schema names are exactly the table's columns plus the one synthesized
`ingestion_time` column, each name occurring once, and the field named
`ingestion_time` carries type `TIMESTAMP` regardless of any type the caller
supplied for that name in the mapping. -/
theorem append_emitted_schema_exact
    (frame : DataFrame) (ct : Dict) (ds tn : String) (cm : Option Dict)
    (clock : Int)
    (hkeys : (ct.map Prod.fst).Nodup)
    (hmatch : SchemaOk ct frame) :
    ∃ job,
      (append_dataframe_to_bq frame ct ds tn cm clock (.ok ())).jobs = [job] ∧
      (append_dataframe_to_bq frame ct ds tn cm clock (.ok ())).result = .ok () ∧
      (job.config.schema.map SchemaField.name).Nodup ∧
      (∀ c, c ∈ job.config.schema.map SchemaField.name ↔
        (c ∈ frame.columns ∨ c = "ingestion_time")) ∧
      "ingestion_time" ∈ job.config.schema.map SchemaField.name ∧
      (∀ fld ∈ job.config.schema,
        fld.name = "ingestion_time" → fld.fieldType = "TIMESTAMP") := by
  rw [append_eq_of_schemaOk frame ct ds tn cm clock (.ok ()) hmatch]
  have hmem : ∀ c,
      c ∈ (buildSchema (dictSet ct "ingestion_time" "TIMESTAMP")
            (cm.getD [])).map SchemaField.name ↔
        (c ∈ frame.columns ∨ c = "ingestion_time") := by
    intro c
    rw [buildSchema_names]
    exact (dictSet_keys_mem ct "ingestion_time" "TIMESTAMP" c).trans
      (or_congr_left (hmatch.2 c))
  refine ⟨_, rfl, rfl, ?_, hmem, (hmem "ingestion_time").mpr (Or.inr rfl), ?_⟩
  · rw [buildSchema_names]
    exact dictSet_keys_nodup ct "ingestion_time" "TIMESTAMP" hkeys
  · intro fld hfld hname
    unfold buildSchema at hfld
    obtain ⟨p, hp, rfl⟩ := List.mem_map.mp hfld
    exact dictSet_mem_val ct "ingestion_time" "TIMESTAMP" p hp hname

/-- C2 witness: a table whose only column is already called
`ingestion_time`, mapped by the caller to `STRING`: the emitted schema still
types it `TIMESTAMP`. -/
theorem append_emitted_schema_exact_witness :
    ∃ job,
      (append_dataframe_to_bq ⟨["ingestion_time"], [[.vInt 0]]⟩
        [("ingestion_time", "STRING")] "ds" "t" none 7 (.ok ())).jobs = [job] ∧
      (append_dataframe_to_bq ⟨["ingestion_time"], [[.vInt 0]]⟩
        [("ingestion_time", "STRING")] "ds" "t" none 7 (.ok ())).result = .ok () ∧
      (job.config.schema.map SchemaField.name).Nodup ∧
      (∀ c, c ∈ job.config.schema.map SchemaField.name ↔
        (c ∈ (⟨["ingestion_time"], [[.vInt 0]]⟩ : DataFrame).columns ∨
          c = "ingestion_time")) ∧
      "ingestion_time" ∈ job.config.schema.map SchemaField.name ∧
      (∀ fld ∈ job.config.schema,
        fld.name = "ingestion_time" → fld.fieldType = "TIMESTAMP") :=
  append_emitted_schema_exact ⟨["ingestion_time"], [[.vInt 0]]⟩
    [("ingestion_time", "STRING")] "ds" "t" none 7 (by decide)
    ⟨by decide, fun c => Iff.rfl⟩

/-- C3: every record emitted in one `append_dataframe_to_bq` call carries
the same ingestion-time value, namely the one clock reading of that call;
and the records of two calls whose clock readings differ carry different
ingestion-time values. -/
theorem append_ingestion_time_uniform_and_injective
    (frame : DataFrame) (ct : Dict) (ds tn : String) (cm : Option Dict)
    (c1 c2 : Int) (jr1 jr2 : Except String Unit)
    (hwf : frame.WF) (hne : c1 ≠ c2) :
    (∀ job ∈ (append_dataframe_to_bq frame ct ds tn cm c1 jr1).jobs,
       ∀ r ∈ job.rows, r.lookup "ingestion_time" = some (.vTime c1)) ∧
    (∀ job1 ∈ (append_dataframe_to_bq frame ct ds tn cm c1 jr1).jobs,
     ∀ job2 ∈ (append_dataframe_to_bq frame ct ds tn cm c2 jr2).jobs,
     ∀ r1 ∈ job1.rows, ∀ r2 ∈ job2.rows,
       r1.lookup "ingestion_time" ≠ r2.lookup "ingestion_time") := by
  refine ⟨append_jobs_rows_lookup frame ct ds tn cm c1 jr1 hwf, ?_⟩
  intro job1 hjob1 job2 hjob2 r1 hr1 r2 hr2
  rw [append_jobs_rows_lookup frame ct ds tn cm c1 jr1 hwf job1 hjob1 r1 hr1,
    append_jobs_rows_lookup frame ct ds tn cm c2 jr2 hwf job2 hjob2 r2 hr2]
  simp [hne]

/-- C3 witness: a concrete matching append with clocks 3 and 4. -/
theorem append_ingestion_time_uniform_and_injective_witness :
    (∀ job ∈ (append_dataframe_to_bq ⟨["a"], [[.vInt 1]]⟩ [("a", "STRING")]
        "ds" "t" none 3 (.ok ())).jobs,
       ∀ r ∈ job.rows, r.lookup "ingestion_time" = some (.vTime 3)) ∧
    (∀ job1 ∈ (append_dataframe_to_bq ⟨["a"], [[.vInt 1]]⟩ [("a", "STRING")]
        "ds" "t" none 3 (.ok ())).jobs,
     ∀ job2 ∈ (append_dataframe_to_bq ⟨["a"], [[.vInt 1]]⟩ [("a", "STRING")]
        "ds" "t" none 4 (.ok ())).jobs,
     ∀ r1 ∈ job1.rows, ∀ r2 ∈ job2.rows,
       r1.lookup "ingestion_time" ≠ r2.lookup "ingestion_time") :=
  append_ingestion_time_uniform_and_injective ⟨["a"], [[.vInt 1]]⟩
    [("a", "STRING")] "ds" "t" none 3 4 (.ok ()) (.ok ())
    (by decide) (by decide)

/-- C4: every load job submitted by `append_dataframe_to_bq` has
write-disposition `WRITE_APPEND`, so applying it to the warehouse appends
after the existing rows rather than overwriting them; consequently two
appends with identical table and mapping add `2 × rows(T)` rows to the
destination. -/
theorem append_write_disposition_always_append
    (frame : DataFrame) (ct : Dict) (ds tn : String) (cm : Option Dict)
    (c1 c2 : Int) (hmatch : SchemaOk ct frame) :
    (∀ clock jr, ∀ job ∈ (append_dataframe_to_bq frame ct ds tn cm clock jr).jobs,
        job.config.write_disposition = "WRITE_APPEND" ∧
        ∀ w, applyLoadJob w job = w ++ job.rows) ∧
    (∃ job1 job2,
      (append_dataframe_to_bq frame ct ds tn cm c1 (.ok ())).jobs = [job1] ∧
      (append_dataframe_to_bq frame ct ds tn cm c2 (.ok ())).jobs = [job2] ∧
      ∀ w, (applyLoadJob (applyLoadJob w job1) job2).length =
        w.length + 2 * frame.rows.length) := by
  constructor
  · intro clock jr job hjob
    by_cases h : SchemaOk ct frame
    · rw [append_eq_of_schemaOk frame ct ds tn cm clock jr h] at hjob
      rw [List.mem_singleton] at hjob
      subst hjob
      exact ⟨rfl, fun w => by simp [applyLoadJob]⟩
    · rw [append_eq_of_mismatch frame ct ds tn cm clock jr h] at hjob
      simp at hjob
  · rw [append_eq_of_schemaOk frame ct ds tn cm c1 (.ok ()) hmatch,
      append_eq_of_schemaOk frame ct ds tn cm c2 (.ok ()) hmatch]
    refine ⟨_, _, rfl, rfl, ?_⟩
    intro w
    simp only [applyLoadJob, beq_self_eq_true, if_pos, List.length_append,
      toRecords_length, setColumnScalar_rows_length]
    omega

/-- C4 witness: a concrete matching append applied twice to an arbitrary
starting warehouse state (the empty one). -/
theorem append_write_disposition_always_append_witness :
    (∀ clock jr, ∀ job ∈ (append_dataframe_to_bq ⟨["a"], [[.vInt 1], [.vInt 2]]⟩
        [("a", "STRING")] "ds" "t" none clock jr).jobs,
        job.config.write_disposition = "WRITE_APPEND" ∧
        ∀ w, applyLoadJob w job = w ++ job.rows) ∧
    (∃ job1 job2,
      (append_dataframe_to_bq ⟨["a"], [[.vInt 1], [.vInt 2]]⟩ [("a", "STRING")]
        "ds" "t" none 3 (.ok ())).jobs = [job1] ∧
      (append_dataframe_to_bq ⟨["a"], [[.vInt 1], [.vInt 2]]⟩ [("a", "STRING")]
        "ds" "t" none 4 (.ok ())).jobs = [job2] ∧
      ∀ w, (applyLoadJob (applyLoadJob w job1) job2).length =
        w.length + 2 * (⟨["a"], [[.vInt 1], [.vInt 2]]⟩ : DataFrame).rows.length) :=
  append_write_disposition_always_append ⟨["a"], [[.vInt 1], [.vInt 2]]⟩
    [("a", "STRING")] "ds" "t" none 3 4 ⟨by decide, fun c => Iff.rfl⟩

/-! ### Loader lemmas and fixtures -/

theorem mapExcept_asColName_vStr (hs : List String) :
    mapExcept asColName (hs.map (fun s => Json.atom (.vStr s))) = .ok hs := by
  induction hs with
  | nil => rfl
  | cons s t ih => simp [mapExcept, asColName, ih]

theorem mapExcept_atoms (r : List Value) :
    mapExcept (fun j =>
      match j with
      | Json.atom v => Except.ok v
      | Json.arr _ => Except.error "model: nested value in row")
      (r.map Json.atom) = .ok r := by
  induction r with
  | nil => rfl
  | cons v t ih =>
      simp only [List.map_cons, mapExcept]
      rw [ih]

theorem recordList_atoms (r : List Value) :
    recordList (Json.arr (r.map Json.atom)) = .ok r :=
  mapExcept_atoms r

theorem mapExcept_recordList_atoms (rs : List (List Value)) :
    mapExcept recordList (rs.map (fun r => Json.arr (r.map Json.atom))) = .ok rs := by
  induction rs with
  | nil => rfl
  | cons r t ih =>
      simp only [List.map_cons, mapExcept]
      rw [recordList_atoms, ih]

/-- The bucket holding the values-format object `[["a","b"],[1,2],[3,4]]`. -/
def vBucket : List (String × Bytes) :=
  [("f.json", .jsonDoc (.arr
    [.arr [.atom (.vStr "a"), .atom (.vStr "b")],
     .arr [.atom (.vInt 1), .atom (.vInt 2)],
     .arr [.atom (.vInt 3), .atom (.vInt 4)]]))]

/-- The bucket holding the CSV object `"a,b\n1,2\n3,4\n"`. -/
def cBucket : List (String × Bytes) :=
  [("d.csv", .chars "a,b\n1,2\n3,4\n")]

/-- The values-format object `[["a","b"],[1,2,3]]` whose one data row is
longer than the header row. -/
def rDoc : Bytes :=
  .jsonDoc (.arr
    [.arr [.atom (.vStr "a"), .atom (.vStr "b")],
     .arr [.atom (.vInt 1), .atom (.vInt 2), .atom (.vInt 3)]])

/-- A bucket holding `rDoc`. -/
def rBucket : List (String × Bytes) :=
  [("r.json", rDoc)]

/-- A values-format object `[["a","b"],[1],[2,3]]` with one short data row
whose longest data row matches the header length. -/
def sBucket : List (String × Bytes) :=
  [("s.json", .jsonDoc (.arr
    [.arr [.atom (.vStr "a"), .atom (.vStr "b")],
     .arr [.atom (.vInt 1)],
     .arr [.atom (.vInt 2), .atom (.vInt 3)]]))]

/-- A bucket whose object is text that is not valid JSON. -/
def bBucket : List (String × Bytes) :=
  [("bad.json", .chars "not json")]

/-- C5: loading the values-format object `[["a","b"],[1,2],[3,4]]` yields a
table with columns `["a","b"]` taken verbatim from the header row and data
rows `(1,2)` then `(3,4)` in source order (and, incidentally, leaves no
staging file behind). -/
theorem load_values_roundtrip_example :
    load_values_as_dataframe vBucket "f.json" [] =
      ([], .ok { columns := ["a", "b"]
                 rows := [[.vInt 1, .vInt 2], [.vInt 3, .vInt 4]] }) := rfl

/-- C6: after a successful values-format load the local staging file for the
loaded object no longer exists, while after a successful CSV load the local
staging file still exists. -/
theorem staging_file_lifecycle_asymmetry
    (bv : List (String × Bytes)) (fnv : String) (fsv : FS)
    (bc : List (String × Bytes)) (fnc : String) (dtype : Option Dict) (fsc : FS)
    (fsv' fsc' : FS) (dfv dfc : DataFrame)
    (hv : load_values_as_dataframe bv fnv fsv = (fsv', .ok dfv))
    (hc : load_csv_as_dataframe bc fnc dtype fsc = (fsc', .ok dfc)) :
    fsv'.lookup (local_file_path fnv) = none ∧
    ∃ b, fsc'.lookup (local_file_path fnc) = some b := by
  constructor
  · unfold load_values_as_dataframe at hv
    split at hv
    · simp at hv
    · split at hv
      · simp at hv
      · split at hv
        · simp at hv
        · rw [Prod.mk.injEq] at hv
          obtain ⟨hfs, _⟩ := hv
          rw [← hfs]
          exact fsRemove_lookup _ _
  · unfold load_csv_as_dataframe at hc
    split at hc
    · simp at hc
    next blob hblob =>
      split at hc
      · simp at hc
      · rw [Prod.mk.injEq] at hc
        obtain ⟨hfs, _⟩ := hc
        exact ⟨blob, by rw [← hfs]; exact dictSet_lookup fsc _ blob⟩

/-- C6 witness: the concrete values load of `vBucket` and CSV load of
`cBucket`, both successful. -/
theorem staging_file_lifecycle_asymmetry_witness :
    (([] : FS).lookup (local_file_path "f.json") = none) ∧
    ∃ b, (dictSet ([] : FS) (local_file_path "d.csv")
      (.chars "a,b\n1,2\n3,4\n")).lookup (local_file_path "d.csv") = some b :=
  staging_file_lifecycle_asymmetry vBucket "f.json" [] cBucket "d.csv" none []
    [] (dictSet [] (local_file_path "d.csv") (.chars "a,b\n1,2\n3,4\n"))
    { columns := ["a", "b"], rows := [[.vInt 1, .vInt 2], [.vInt 3, .vInt 4]] }
    { columns := ["a", "b"], rows := [[.vInt 1, .vInt 2], [.vInt 3, .vInt 4]] }
    rfl rfl

/-- C7 counterexample: the values-format document `[["a","b"],[1,2,3]]` has
a data row longer than the header, and loading it does not succeed — the
table construction raises (pandas `from_records` rejects data wider than
the passed columns), contradicting the claim that any length mismatch
still succeeds. -/
theorem load_values_ragged_long_row_errors :
    (load_values_as_dataframe rBucket "r.json" []).2 =
      .error (.parseError
        "ValueError: columns passed, passed data had different number of columns") := rfl

/-- C7 amended: for a values-format document of header `hs` and data rows
`rs`, rows shorter than the header are permitted and produce missing
(null-padded) values — but only when the longest data row has exactly the
header's length; when the maximal data-row length differs from the header
length (any row longer than the header, or every row shorter), the load
fails instead of succeeding. -/
theorem load_values_row_length_amended
    (bucket : List (String × Bytes)) (filename : String) (fs : FS)
    (hs : List String) (rs : List (List Value))
    (hb : bucket.lookup filename =
      some (.jsonDoc (.arr (.arr (hs.map (fun s => Json.atom (.vStr s))) ::
        rs.map (fun r => Json.arr (r.map Json.atom))))))
    (hne : rs ≠ []) :
    (maxLen rs = hs.length →
      (load_values_as_dataframe bucket filename fs).2 =
        .ok { columns := hs
              rows := rs.map (fun r =>
                r ++ List.replicate (hs.length - r.length) .vNull) }) ∧
    (maxLen rs ≠ hs.length →
      (load_values_as_dataframe bucket filename fs).2 =
        .error (.parseError
          "ValueError: columns passed, passed data had different number of columns")) := by
  have hempty : rs.isEmpty = false := by
    cases rs with
    | nil => exact absurd rfl hne
    | cons r t => rfl
  have h1 : valuesFrame (.arr (.arr (hs.map (fun s => Json.atom (.vStr s))) ::
      rs.map (fun r => Json.arr (r.map Json.atom)))) =
      match mapExcept asColName (hs.map (fun s => Json.atom (.vStr s))),
        mapExcept recordList (rs.map (fun r => Json.arr (r.map Json.atom))) with
      | .ok col_names, .ok records => from_records records col_names
      | .error e, _ => .error e
      | .ok _, .error e => .error e := rfl
  have hvf : valuesFrame (.arr (.arr (hs.map (fun s => Json.atom (.vStr s))) ::
      rs.map (fun r => Json.arr (r.map Json.atom)))) = from_records rs hs := by
    rw [h1, mapExcept_asColName_vStr, mapExcept_recordList_atoms]
  constructor
  · intro hmax
    have hfr : from_records rs hs =
        .ok { columns := hs
              rows := rs.map (fun r =>
                r ++ List.replicate (hs.length - r.length) .vNull) } := by
      unfold from_records
      rw [hempty, hmax]
      simp
    simp only [load_values_as_dataframe, hb, json_load, hvf, hfr]
  · intro hmax
    have hfr : from_records rs hs =
        .error "ValueError: columns passed, passed data had different number of columns" := by
      unfold from_records
      rw [hempty]
      have : (hs.length != maxLen rs) = true := by
        simp only [bne_iff_ne]
        exact fun hh => hmax hh.symm
      rw [this]
      simp
    simp only [load_values_as_dataframe, hb, json_load, hvf, hfr]

/-- C7 amended witness: `[["a","b"],[1],[2,3]]` — the short first row loads
with a missing (null) value while the longest row matches the header. -/
theorem load_values_row_length_amended_witness :
    (load_values_as_dataframe sBucket "s.json" []).2 =
      .ok { columns := ["a", "b"]
            rows := [[.vInt 1, .vNull], [.vInt 2, .vInt 3]] } :=
  (load_values_row_length_amended sBucket "s.json" [] ["a", "b"]
    [[.vInt 1], [.vInt 2, .vInt 3]] rfl (by decide)).1 (by decide)

/-- C8: loading the CSV object `"a,b\n1,2\n3,4\n"` with a dtype hint forcing
column `"a"` to string yields the string `"1"` (not the integer 1) at row 0
column `"a"`; without the hint the value is parsed as the integer 1. -/
theorem load_csv_type_hint_example :
    load_csv_as_dataframe cBucket "d.csv" (some [("a", "str")]) [] =
      ([(local_file_path "d.csv", .chars "a,b\n1,2\n3,4\n")],
        .ok { columns := ["a", "b"]
              rows := [[.vStr "1", .vInt 2], [.vStr "3", .vInt 4]] }) ∧
    load_csv_as_dataframe cBucket "d.csv" none [] =
      ([(local_file_path "d.csv", .chars "a,b\n1,2\n3,4\n")],
        .ok { columns := ["a", "b"]
              rows := [[.vInt 1, .vInt 2], [.vInt 3, .vInt 4]] }) := ⟨rfl, rfl⟩

/-- C9: `append_dataframe_to_bq` mutates the caller's DataFrame in place:
after any call that passes schema validation — for every injected load-job
outcome, including a failing job — the caller's frame contains an
`ingestion_time` column holding the call's clock value in every row; when
validation fails the caller's frame is unchanged. -/
theorem append_mutates_frame_in_place
    (frame : DataFrame) (ct : Dict) (ds tn : String) (cm : Option Dict)
    (clock : Int) (jr : Except String Unit) (hwf : frame.WF) :
    (SchemaOk ct frame →
      "ingestion_time" ∈
          (append_dataframe_to_bq frame ct ds tn cm clock jr).frame.columns ∧
        ∀ r ∈ (append_dataframe_to_bq frame ct ds tn cm clock jr).frame.toRecords,
          r.lookup "ingestion_time" = some (.vTime clock)) ∧
    (¬ SchemaOk ct frame →
      (append_dataframe_to_bq frame ct ds tn cm clock jr).frame = frame) := by
  constructor
  · intro h
    rw [append_eq_of_schemaOk frame ct ds tn cm clock jr h]
    exact ⟨setColumnScalar_mem_columns frame _ _,
      setColumnScalar_toRecords_lookup frame hwf _ _⟩
  · intro h
    rw [append_eq_of_mismatch frame ct ds tn cm clock jr h]

/-- C9 witness: a matching call whose load job fails still leaves the
caller's frame stamped; a mismatching call leaves it untouched. -/
theorem append_mutates_frame_in_place_witness :
    ("ingestion_time" ∈
        (append_dataframe_to_bq ⟨["a"], [[.vInt 1]]⟩ [("a", "STRING")]
          "ds" "t" none 7 (.error "boom")).frame.columns ∧
      ∀ r ∈ (append_dataframe_to_bq ⟨["a"], [[.vInt 1]]⟩ [("a", "STRING")]
          "ds" "t" none 7 (.error "boom")).frame.toRecords,
        r.lookup "ingestion_time" = some (.vTime 7)) ∧
    (append_dataframe_to_bq ⟨["a"], [[.vInt 1]]⟩ [("b", "STRING")]
      "ds" "t" none 7 (.ok ())).frame = ⟨["a"], [[.vInt 1]]⟩ :=
  ⟨(append_mutates_frame_in_place ⟨["a"], [[.vInt 1]]⟩ [("a", "STRING")]
      "ds" "t" none 7 (.error "boom") (by decide)).1
      ⟨by decide, fun c => Iff.rfl⟩,
   (append_mutates_frame_in_place ⟨["a"], [[.vInt 1]]⟩ [("b", "STRING")]
      "ds" "t" none 7 (.ok ()) (by decide)).2
      (fun hs => absurd ((hs.2 "b").mp (by decide)) (by decide))⟩

/-- C10: when `load_values_as_dataframe` stages the object successfully but
parsing fails (invalid JSON, or table construction from the parsed value
fails), the call raises a parse-class failure and the local staging file is
not deleted: it still holds the downloaded bytes. -/
theorem load_values_parse_failure_keeps_staging
    (bucket : List (String × Bytes)) (filename : String) (fs : FS)
    (fs' : FS) (e : String)
    (h : load_values_as_dataframe bucket filename fs = (fs', .error (.parseError e))) :
    ∃ b, bucket.lookup filename = some b ∧
      fs'.lookup (local_file_path filename) = some b := by
  unfold load_values_as_dataframe at h
  split at h
  · simp at h
  next blob hblob =>
    split at h
    · rw [Prod.mk.injEq] at h
      obtain ⟨hfs, _⟩ := h
      exact ⟨blob, hblob, by rw [← hfs]; exact dictSet_lookup fs _ blob⟩
    · split at h
      · rw [Prod.mk.injEq] at h
        obtain ⟨hfs, _⟩ := h
        exact ⟨blob, hblob, by rw [← hfs]; exact dictSet_lookup fs _ blob⟩
      · simp at h

/-- C10 witness: applied both to a non-JSON object (decode failure) and to
the ragged values object (construction failure); in each case the staging
file survives with the downloaded content. -/
theorem load_values_parse_failure_keeps_staging_witness :
    (∃ b, bBucket.lookup "bad.json" = some b ∧
      (dictSet ([] : FS) (local_file_path "bad.json")
        (.chars "not json")).lookup (local_file_path "bad.json") = some b) ∧
    (∃ b, rBucket.lookup "r.json" = some b ∧
      (dictSet ([] : FS) (local_file_path "r.json")
        rDoc).lookup (local_file_path "r.json") = some b) :=
  ⟨load_values_parse_failure_keeps_staging bBucket "bad.json" []
      (dictSet [] (local_file_path "bad.json") (.chars "not json"))
      "JSONDecodeError: Expecting value" rfl,
   load_values_parse_failure_keeps_staging rBucket "r.json" []
      (dictSet [] (local_file_path "r.json") rDoc)
      "ValueError: columns passed, passed data had different number of columns" rfl⟩

end GcsToBq
